import Mathlib

/-!
# Verification of the atomic-week local data-persistence and query layer

Shallow embedding of the data-access layer found in `src/db`
(table creation, seeding, category/record CRUD, range queries), of the
screen-level minutes validation in `handleSaveRecord`, and of the memoized
`hexToRgba` color utility.

Modelling conventions:
* The SQLite store is a `DBState`: one list per table (in rowid /
  insertion order) plus the AUTOINCREMENT counters and three booleans
  recording which tables exist.
* `SELECT ... ORDER BY c DESC` is modelled as `List.insertionSort` with the
  corresponding non-increasing relation (SQLite returns the filtered rows in
  some order satisfying the ORDER BY; insertion sort realises one such order,
  and the theorems only use permutation/sortedness facts that hold for any).
* Store-level failures (`execSync` / `runSync` / `getAllSync` throwing) are
  modelled by a `StoreEnv` of booleans saying which statement kinds the
  store fails on; `executeQuery` rethrows, so a failing statement surfaces
  as `Except.error`.
* SQLite foreign-key enforcement (`PRAGMA foreign_keys`) is OFF by default
  in expo-sqlite and the source never enables it; `foreignKeysEnabled`
  records that configuration explicitly.
* Timestamps are epoch milliseconds (`Int`).  JavaScript `Date` local-time
  arithmetic (`setHours`) is modelled with a fixed timezone offset `off`
  in milliseconds east of UTC.
-/

/-- A row of the `categories` table:
`id INTEGER PRIMARY KEY AUTOINCREMENT, name TEXT NOT NULL, colorHex TEXT,
createdAt INTEGER`. -/
structure CategoryRow where
  id : Int
  name : String
  colorHex : Option String
  createdAt : Int
deriving DecidableEq

/-- A row of the `records` table:
`id INTEGER PRIMARY KEY AUTOINCREMENT, categoryId INTEGER, description TEXT,
minutes INTEGER NOT NULL, timestamp INTEGER NOT NULL`. -/
structure RecordRow where
  id : Int
  categoryId : Option Int
  description : Option String
  minutes : Int
  timestamp : Int
deriving DecidableEq

/-- The state of the embedded database file `productivity_tracker.db`. -/
structure DBState where
  categoriesCreated : Bool
  recordsCreated : Bool
  weekStatsCreated : Bool
  categories : List CategoryRow
  records : List RecordRow
  nextCategoryId : Int
  nextRecordId : Int
deriving DecidableEq

/-- Result of `db.runSync` for a mutating statement.  Only the `changes`
count is modelled; no claim depends on `lastInsertRowId`. -/
structure RunResult where
  changes : Nat
deriving DecidableEq

/-- Which SQL statements the underlying store fails on (modelling
`execSync`/`getAllSync`/`runSync` throwing; `executeQuery` logs and
rethrows, so a failure surfaces as `Except.error`). -/
structure StoreEnv where
  createCategoriesFails : Bool
  createRecordsFails : Bool
  createWeekStatsFails : Bool
  selectCategoriesFails : Bool
  insertCategoryFails : Bool
deriving DecidableEq

/-- The store raising no failures. -/
def happyEnv : StoreEnv :=
  { createCategoriesFails := false
    createRecordsFails := false
    createWeekStatsFails := false
    selectCategoriesFails := false
    insertCategoryFails := false }

/-- `PRAGMA foreign_keys` is OFF by default in SQLite/expo-sqlite and the
source never issues the pragma, so the `FOREIGN KEY (categoryId)` clause of
the records table is not enforced. -/
def foreignKeysEnabled : Bool := false

/-- `db.execSync(CREATE_CATEGORIES_TABLE)`: `CREATE TABLE IF NOT EXISTS`. -/
def createCategoriesTable (db : DBState) : DBState :=
  { db with categoriesCreated := true }

/-- `db.execSync(CREATE_RECORDS_TABLE)`: `CREATE TABLE IF NOT EXISTS`. -/
def createRecordsTable (db : DBState) : DBState :=
  { db with recordsCreated := true }

/-- `db.execSync(CREATE_WEEK_STATS_TABLE)`: `CREATE TABLE IF NOT EXISTS`. -/
def createWeekStatsTable (db : DBState) : DBState :=
  { db with weekStatsCreated := true }

/-- Descending `createdAt` order used by `getCategories`. -/
def catDesc (a b : CategoryRow) : Prop := b.createdAt ≤ a.createdAt

instance : DecidableRel catDesc := fun a b =>
  inferInstanceAs (Decidable (b.createdAt ≤ a.createdAt))

instance : IsTotal CategoryRow catDesc :=
  ⟨fun a b => le_total b.createdAt a.createdAt⟩

instance : IsTrans CategoryRow catDesc :=
  ⟨fun _ _ _ h1 h2 => le_trans h2 h1⟩

/-- Descending `timestamp` order used by `getRecordsByDateRange`. -/
def recDesc (a b : RecordRow) : Prop := b.timestamp ≤ a.timestamp

instance : DecidableRel recDesc := fun a b =>
  inferInstanceAs (Decidable (b.timestamp ≤ a.timestamp))

instance : IsTotal RecordRow recDesc :=
  ⟨fun a b => le_total b.timestamp a.timestamp⟩

instance : IsTrans RecordRow recDesc :=
  ⟨fun _ _ _ h1 h2 => le_trans h2 h1⟩

/-- `getCategories()`: `SELECT * FROM categories ORDER BY createdAt DESC`,
with the store possibly failing on the SELECT. -/
def getCategoriesE (env : StoreEnv) (db : DBState) :
    Except String (List CategoryRow) :=
  if env.selectCategoriesFails then .error "SQL execution failed"
  else .ok (List.insertionSort catDesc db.categories)

/-- `insertCategory(name, colorHex?)`:
`INSERT INTO categories (name, colorHex, createdAt) VALUES (?, ?, ?)` with
`createdAt = Date.now()` (passed as `now`); `colorHex || null` stores NULL
for an omitted color.  The store may fail on the INSERT. -/
def insertCategoryE (env : StoreEnv) (db : DBState) (name : String)
    (colorHex : Option String) (now : Int) : Except String DBState :=
  if env.insertCategoryFails then .error "SQL execution failed"
  else
    .ok { db with
          categories := db.categories ++
            [{ id := db.nextCategoryId, name := name, colorHex := colorHex,
               createdAt := now }]
          nextCategoryId := db.nextCategoryId + 1 }

/-- `insertCategory` in the non-failing store (used by pure reasoning). -/
def insertCategory (db : DBState) (name : String) (colorHex : Option String)
    (now : Int) : DBState :=
  { db with
    categories := db.categories ++
      [{ id := db.nextCategoryId, name := name, colorHex := colorHex,
         createdAt := now }]
    nextCategoryId := db.nextCategoryId + 1 }

/-- `updateCategory(id, name?, colorHex?)`: pushes a setter per provided
field; if none were provided it returns `null` (here `none`) without
executing SQL, otherwise runs
`UPDATE categories SET ... WHERE id = ?`. -/
def updateCategory (db : DBState) (id : Int) (name : Option String)
    (colorHex : Option String) : Option RunResult × DBState :=
  let updates : List (CategoryRow → CategoryRow) :=
    (match name with
     | some n => [fun c => { c with name := n }]
     | none => []) ++
    (match colorHex with
     | some h => [fun c => { c with colorHex := some h }]
     | none => [])
  if updates.length = 0 then (none, db)
  else
    let applyAll : CategoryRow → CategoryRow :=
      fun c => updates.foldl (fun c f => f c) c
    (some { changes := (db.categories.filter (fun c => c.id == id)).length },
     { db with
       categories := db.categories.map
         (fun c => if c.id == id then applyAll c else c) })

/-- `deleteCategory(id)`: `DELETE FROM categories WHERE id = ?`.  With
foreign keys enforced, SQLite would reject the delete while a record still
references the category; with the actual (OFF) configuration the delete
always succeeds and records are untouched. -/
def deleteCategory (db : DBState) (id : Int) : Except String DBState :=
  if foreignKeysEnabled && db.records.any (fun r => r.categoryId == some id)
  then .error "FOREIGN KEY constraint failed"
  else .ok { db with categories := db.categories.filter (fun c => !(c.id == id)) }

/-- The `RecordInput` interface of `insertRecord`. -/
structure RecordInput where
  categoryId : Option Int
  description : String
  minutes : Int
  timestamp : Int
deriving DecidableEq

/-- The row that `insertRecord` stores for `rec` in state `db`. -/
def insertedRow (db : DBState) (rec : RecordInput) : RecordRow :=
  { id := db.nextRecordId, categoryId := rec.categoryId,
    description := some rec.description, minutes := rec.minutes,
    timestamp := rec.timestamp }

/-- `insertRecord(record)`:
`INSERT INTO records (categoryId, description, minutes, timestamp)
VALUES (?, ?, ?, ?)`.  The schema has no CHECK constraint, so any
`minutes` value (0 or negative included) is stored. -/
def insertRecord (db : DBState) (rec : RecordInput) : RunResult × DBState :=
  ({ changes := 1 },
   { db with records := db.records ++ [insertedRow db rec],
             nextRecordId := db.nextRecordId + 1 })

/-- `getRecordsByDateRange(startTimestamp, endTimestamp)`:
`SELECT * FROM records WHERE timestamp >= ? AND timestamp <= ?
ORDER BY timestamp DESC`. -/
def getRecordsByDateRange (db : DBState) (startTimestamp endTimestamp : Int) :
    List RecordRow :=
  List.insertionSort recDesc
    (db.records.filter
      (fun r => decide (startTimestamp ≤ r.timestamp) &&
                decide (r.timestamp ≤ endTimestamp)))

/-- `updateRecord(id, categoryId?, description?, minutes?, timestamp?)`:
same dynamic-SET pattern as `updateCategory`.  An argument `none` models
the field being `undefined` (omitted from the SET clause); `some v` models
it being provided, where for the nullable `categoryId`/`description`
columns `v` is itself an `Option` (`some none` = explicit SQL NULL). -/
def updateRecord (db : DBState) (id : Int) (categoryId : Option (Option Int))
    (description : Option (Option String)) (minutes : Option Int)
    (timestamp : Option Int) : Option RunResult × DBState :=
  let updates : List (RecordRow → RecordRow) :=
    (match categoryId with
     | some v => [fun r => { r with categoryId := v }]
     | none => []) ++
    (match description with
     | some v => [fun r => { r with description := v }]
     | none => []) ++
    (match minutes with
     | some v => [fun r => { r with minutes := v }]
     | none => []) ++
    (match timestamp with
     | some v => [fun r => { r with timestamp := v }]
     | none => [])
  if updates.length = 0 then (none, db)
  else
    let applyAll : RecordRow → RecordRow :=
      fun r => updates.foldl (fun r f => f r) r
    (some { changes := (db.records.filter (fun r => r.id == id)).length },
     { db with
       records := db.records.map
         (fun r => if r.id == id then applyAll r else r) })

/-- `deleteRecord(id)`: `DELETE FROM records WHERE id = ?`. -/
def deleteRecord (db : DBState) (id : Int) : DBState :=
  { db with records := db.records.filter (fun r => !(r.id == id)) }

/-- `seedDefaultCategories()`: reads the categories; when none exist,
inserts the three defaults.  The whole body is wrapped in
`try { ... } catch (error) { console.error(...) }` with NO rethrow, so a
store failure is swallowed: the function returns normally, keeping the
partial effects performed before the failure.  The second component is the
caught (logged) error, `none` when nothing was thrown. -/
def seedDefaultCategories (env : StoreEnv) (db : DBState) (now : Int) :
    DBState × Option String :=
  match getCategoriesE env db with
  | .error e => (db, some e)
  | .ok existingCategories =>
    if existingCategories.length = 0 then
      match insertCategoryE env db "Work" (some "#3b82f6") now with
      | .error e => (db, some e)
      | .ok db1 =>
        match insertCategoryE env db1 "Exercise" (some "#10b981") now with
        | .error e => (db1, some e)
        | .ok db2 =>
          match insertCategoryE env db2 "Others" (some "#6b7280") now with
          | .error e => (db2, some e)
          | .ok db3 => (db3, none)
    else (db, none)

/-- `initializeDatabase()`: creates the three tables, then seeds the default
categories.  Its own `catch` logs and RETHROWS, so a table-creation failure
propagates to the caller; `seedDefaultCategories` never throws (its catch
swallows), so seeding failures do not reach this catch. -/
def initializeDatabase (env : StoreEnv) (db : DBState) (now : Int) :
    Except String DBState :=
  let exec := fun (fails : Bool) (apply : DBState → DBState) (db : DBState) =>
    if fails then Except.error "SQL execution failed" else Except.ok (apply db)
  match exec env.createCategoriesFails createCategoriesTable db with
  | .error e => .error e
  | .ok db1 =>
    match exec env.createRecordsFails createRecordsTable db1 with
    | .error e => .error e
    | .ok db2 =>
      match exec env.createWeekStatsFails createWeekStatsTable db2 with
      | .error e => .error e
      | .ok db3 => .ok (seedDefaultCategories env db3 now).1

/-- Whether an `Except`-returning store operation returned normally. -/
def initSucceeds (e : Except String DBState) : Bool :=
  match e with
  | .ok _ => true
  | .error _ => false

/-- The per-row effect of `updateRecord`'s dynamic SET clause: each provided
field overwrites the stored value (`Option.getD` keeps the stored value for
an omitted field). -/
def applyFields (cid : Option (Option Int)) (d : Option (Option String))
    (m : Option Int) (t : Option Int) (r : RecordRow) : RecordRow :=
  { r with categoryId := cid.getD r.categoryId,
           description := d.getD r.description,
           minutes := m.getD r.minutes,
           timestamp := t.getD r.timestamp }

/-- Epoch-ms of local midnight (00:00:00.000) of the day containing `t`,
for a timezone `off` milliseconds east of UTC: the model of
`new Date(t)` followed by `setHours(0, 0, 0, 0)` then `getTime()`. -/
def startOfDayLocal (off t : Int) : Int := t - (t + off) % 86400000

/-- Epoch-ms of local 23:59:59.999 of the day containing `t`: the model of
`setHours(23, 59, 59, 999)`. -/
def endOfDayLocal (off t : Int) : Int := startOfDayLocal off t + 86399999

/-- `fetchTodayRecords(date)`: computes the local start and end of the day
of `date` and delegates to `getRecordsByDateRange`. -/
def fetchTodayRecords (off : Int) (db : DBState) (t : Int) : List RecordRow :=
  getRecordsByDateRange db (startOfDayLocal off t) (endOfDayLocal off t)

/-- The minutes guard of `handleSaveRecord` in the week screen:
`const mins = parseInt(minutes, 10); if (isNaN(mins) || mins <= 0) return;`.
`none` models `parseInt` returning NaN.  Returns whether the save proceeds
to `insertRecord`. -/
def minutesGuardPasses (mins : Option Int) : Bool :=
  match mins with
  | none => false
  | some m => !(decide (m ≤ 0))

/-! ## The memoized `hexToRgba` color utility

`opacity` is a JavaScript number; both the cache key and the produced rgba
string use only its string rendering, so the model takes the rendering
directly as a `String` (e.g. the numbers `7` and `1e-7` render as `"7"`
and `"1e-7"`). -/

/-- Value of a hex digit, `none` for a non-digit. -/
def hexDigitValue (c : Char) : Option Nat :=
  if '0' ≤ c && c ≤ '9' then some (c.toNat - 48)
  else if 'a' ≤ c && c ≤ 'f' then some (c.toNat - 87)
  else if 'A' ≤ c && c ≤ 'F' then some (c.toNat - 55)
  else none

/-- Accumulate the longest hex-digit prefix, starting from `acc`. -/
def hexDigitsAcc : List Char → Nat → Nat
  | [], acc => acc
  | c :: cs, acc =>
    match hexDigitValue c with
    | none => acc
    | some d => hexDigitsAcc cs (acc * 16 + d)

/-- Longest nonempty hex-digit prefix; `none` when the first char is not a
hex digit (`parseInt` yields NaN). -/
def hexDigitsPrefix : List Char → Option Nat
  | [] => none
  | c :: cs =>
    match hexDigitValue c with
    | none => none
    | some d => some (hexDigitsAcc cs d)

/-- JavaScript `parseInt(s, 16)`: skip leading whitespace, read an optional
sign, skip an optional `0x`/`0X`, then take the longest hex-digit prefix;
`none` models NaN. -/
def parseIntHex (s : String) : Option Int :=
  let cs := s.data.dropWhile (fun c => c == ' ' || c == '\t' || c == '\n' || c == '\r')
  let signAndRest : Int × List Char :=
    match cs with
    | '-' :: rest => (-1, rest)
    | '+' :: rest => (1, rest)
    | _ => (1, cs)
  let rest :=
    match signAndRest.2 with
    | '0' :: 'x' :: tl => tl
    | '0' :: 'X' :: tl => tl
    | l => l
  (hexDigitsPrefix rest).map (fun n => signAndRest.1 * (n : Int))

/-- JavaScript `String(n)` for a `parseInt` result (`"NaN"` for NaN). -/
def jsNumToString (n : Option Int) : String :=
  match n with
  | none => "NaN"
  | some v => toString v

/-- JavaScript `s.slice(a, b)` for `0 ≤ a ≤ b`. -/
def jsSlice (s : String) (a b : Nat) : String :=
  ⟨(s.data.drop a).take (b - a)⟩

/-- The uncached computation shared by both copies of `hexToRgba` (the body
of the inline helper in the week screen, and of the cache-miss path in the
color-utils module): parse the three two-digit hex components and format
them as an rgba string. -/
def hexToRgbaDirect (hex opacity : String) : String :=
  "rgba(" ++ jsNumToString (parseIntHex (jsSlice hex 1 3)) ++ ", " ++
    jsNumToString (parseIntHex (jsSlice hex 3 5)) ++ ", " ++
    jsNumToString (parseIntHex (jsSlice hex 5 7)) ++ ", " ++ opacity ++ ")"

/-- `hexToRgbaCache.has` / `.get`, combined into one association-list
lookup over insertion order (Map keys are unique, so has-then-get equals
a single lookup). -/
def cacheLookup (key : String) : List (String × String) → Option String
  | [] => none
  | (k, v) :: rest => if k = key then some v else cacheLookup key rest

/-- The exported memoized `hexToRgba` of the color-utils module: key
`hex + "-" + opacity`, returning the cached string on a hit, otherwise
computing, caching and returning the fresh string.  Returns the result and
the updated cache. -/
def hexToRgba (cache : List (String × String)) (hex opacity : String) :
    String × List (String × String) :=
  let cacheKey := hex ++ "-" ++ opacity
  match cacheLookup cacheKey cache with
  | some v => (v, cache)
  | none =>
    let result := hexToRgbaDirect hex opacity
    (result, (cacheKey, result) :: cache)

/-- Run a history of `hexToRgba` calls against the module-level cache,
starting from the empty cache the module initializes. -/
def runHexToRgbaCalls (calls : List (String × String)) :
    List (String × String) :=
  calls.foldl (fun cache p => (hexToRgba cache p.1 p.2).2) []

/-- Invariant of the `hexToRgba` cache when all calls so far passed a
7-character hex string: every entry was stored under key
`hex ++ "-" ++ opacity` with the uncached result as value. -/
def cacheGood (cache : List (String × String)) : Prop :=
  ∀ e ∈ cache, ∃ hx op : String, hx.length = 7 ∧
    e.1 = hx ++ "-" ++ op ∧ e.2 = hexToRgbaDirect hx op

/-! ## Concrete states used by the witnesses -/

/-- A small populated database state. -/
def exDB : DBState :=
  { categoriesCreated := true, recordsCreated := true, weekStatsCreated := true,
    categories :=
      [{ id := 1, name := "Work", colorHex := some "#3b82f6", createdAt := 5 }],
    records :=
      [{ id := 1, categoryId := some 1, description := some "a", minutes := 30,
         timestamp := 15 },
       { id := 2, categoryId := none, description := none, minutes := 5,
         timestamp := 25 },
       { id := 3, categoryId := some 2, description := some "b", minutes := 10,
         timestamp := 12 }],
    nextCategoryId := 2, nextRecordId := 4 }

/-- A freshly created, empty database file. -/
def emptyDB : DBState :=
  { categoriesCreated := false, recordsCreated := false,
    weekStatsCreated := false, categories := [], records := [],
    nextCategoryId := 1, nextRecordId := 1 }

/-- A store that fails on `INSERT INTO categories` and nothing else. -/
def seedFailEnv : StoreEnv := { happyEnv with insertCategoryFails := true }

/-- The state `deleteCategory` produces (foreign keys are unenforced, so the
delete always takes the non-error branch). -/
def deleteCategoryResult (db : DBState) (id : Int) : DBState :=
  { db with categories := db.categories.filter (fun c => !(c.id == id)) }

/-- A record input with zero minutes, as a screen bypass would submit. -/
def zeroMinutesInput : RecordInput :=
  { categoryId := some 1, description := "x", minutes := 0, timestamp := 50 }

/-- The first stored record of `exDB`. -/
def row0C9 : RecordRow :=
  { id := 1, categoryId := some 1, description := some "a", minutes := 30,
    timestamp := 15 }

/-- `row0C9` after its `categoryId` is explicitly set to SQL NULL. -/
def row0C9n : RecordRow :=
  { id := 1, categoryId := none, description := some "a", minutes := 30,
    timestamp := 15 }

/-! ## Helper lemmas -/

/-- `seedDefaultCategories` against the non-failing store: inserts the three
defaults exactly when no category row exists, otherwise does nothing; never
reports an error. -/
theorem seed_happy_eq (db : DBState) (now : Int) :
    seedDefaultCategories happyEnv db now =
      (if db.categories.isEmpty then
        { db with
          categories := db.categories ++
            [{ id := db.nextCategoryId, name := "Work",
               colorHex := some "#3b82f6", createdAt := now },
             { id := db.nextCategoryId + 1, name := "Exercise",
               colorHex := some "#10b981", createdAt := now },
             { id := db.nextCategoryId + 2, name := "Others",
               colorHex := some "#6b7280", createdAt := now }],
          nextCategoryId := db.nextCategoryId + 3 }
      else db, none) := by
  obtain ⟨f1, f2, f3, cats, recs, ncid, nrid⟩ := db
  unfold seedDefaultCategories getCategoriesE insertCategoryE happyEnv
  rcases cats with _ | ⟨c, cs⟩
  · simp [Prod.mk.injEq, DBState.mk.injEq, CategoryRow.mk.injEq,
      List.append_assoc]
    omega
  · have hne : List.orderedInsert catDesc c (List.insertionSort catDesc cs) ≠
        [] := by
      intro hnil
      have := List.orderedInsert_length catDesc (List.insertionSort catDesc cs) c
      rw [hnil] at this
      simp at this
    simp [hne]

/-- Seeding against the non-failing store never leaves the categories table
empty when it ran on any state, and preserves the table-existence flags. -/
theorem seed_happy_shape (db : DBState) (now : Int) :
    ((seedDefaultCategories happyEnv db now).1.categories.isEmpty = false) ∧
    (seedDefaultCategories happyEnv db now).1.categoriesCreated =
        db.categoriesCreated ∧
    (seedDefaultCategories happyEnv db now).1.recordsCreated =
        db.recordsCreated ∧
    (seedDefaultCategories happyEnv db now).1.weekStatsCreated =
        db.weekStatsCreated := by
  rw [seed_happy_eq]
  rcases hc : db.categories with _ | ⟨c, cs⟩ <;> simp [hc]

/-- `cacheLookup` only returns values stored in the cache. -/
theorem cacheLookup_mem {key v : String} :
    ∀ {cache : List (String × String)}, cacheLookup key cache = some v →
      (key, v) ∈ cache := by
  intro cache
  induction cache with
  | nil => intro h; exact absurd h (by simp [cacheLookup])
  | cons e rest ih =>
    intro h
    rcases e with ⟨k, w⟩
    by_cases hk : k = key
    · subst hk
      simp [cacheLookup] at h
      simp [h]
    · simp [cacheLookup, hk] at h
      exact List.mem_cons_of_mem _ (ih h)

/-! ## Claim theorems -/

/-- C1: for every database state and bounds `start ≤ end`,
`getRecordsByDateRange(start, end)` returns exactly the stored records whose
timestamp lies in `[start, end]` (both bounds inclusive: the WHERE clause is
`timestamp >= ? AND timestamp <= ?`), as a permutation of that filtered
subset, and the returned list is ordered by `timestamp` descending. -/
theorem C1_getRecordsByDateRange_exact_and_sorted (db : DBState)
    (s e : Int) (_h : s ≤ e) :
    (getRecordsByDateRange db s e).Perm
        (db.records.filter
          (fun r => decide (s ≤ r.timestamp) && decide (r.timestamp ≤ e))) ∧
    List.Sorted recDesc (getRecordsByDateRange db s e) :=
  ⟨List.perm_insertionSort recDesc _, List.sorted_insertionSort recDesc _⟩

/-- C1 witness: the range query on a concrete state with bounds 10 ≤ 20. -/
theorem C1_witness :
    ((10 : Int) ≤ 20) ∧
    ((getRecordsByDateRange exDB 10 20).Perm
        (exDB.records.filter
          (fun r => decide ((10 : Int) ≤ r.timestamp) &&
                    decide (r.timestamp ≤ (20 : Int)))) ∧
     List.Sorted recDesc (getRecordsByDateRange exDB 10 20)) :=
  ⟨by decide, C1_getRecordsByDateRange_exact_and_sorted exDB 10 20 (by decide)⟩

/-- C2: deleting a category succeeds (no error) even when stored records
reference its id, and every record keeps its original, now-dangling
`categoryId`: the records table and every range read are unchanged. -/
theorem C2_deleteCategory_never_raises_and_preserves_records (db : DBState)
    (id : Int) (_h : ∃ r ∈ db.records, r.categoryId = some id) :
    deleteCategory db id = .ok (deleteCategoryResult db id) ∧
    (deleteCategoryResult db id).records = db.records ∧
    ∀ s e : Int, getRecordsByDateRange (deleteCategoryResult db id) s e =
      getRecordsByDateRange db s e :=
  ⟨rfl, rfl, fun _ _ => rfl⟩

/-- C2 witness: delete category 1 of the concrete state, which record 1
references. -/
theorem C2_witness :
    (∃ r ∈ exDB.records, r.categoryId = some 1) ∧
    deleteCategory exDB 1 = .ok (deleteCategoryResult exDB 1) ∧
    (deleteCategoryResult exDB 1).records = exDB.records ∧
    getRecordsByDateRange (deleteCategoryResult exDB 1) 10 20 =
      getRecordsByDateRange exDB 10 20 :=
  ⟨by decide,
   (C2_deleteCategory_never_raises_and_preserves_records exDB 1 (by decide)).1,
   (C2_deleteCategory_never_raises_and_preserves_records exDB 1 (by decide)).2.1,
   (C2_deleteCategory_never_raises_and_preserves_records exDB 1
      (by decide)).2.2 10 20⟩

/-- C4: calling `updateCategory` or `updateRecord` with none of the optional
fields provided returns the no-op result `null` without touching the state:
no SQL is issued and every stored row is unchanged. -/
theorem C4_update_without_fields_is_noop (db : DBState) (idC idR : Int) :
    updateCategory db idC none none = (none, db) ∧
    updateRecord db idR none none none none = (none, db) :=
  ⟨rfl, rfl⟩

/-- C6: the store layer enforces no positivity constraint on `minutes`:
`insertRecord` with non-positive minutes stores the row unchanged, while the
week screen's `handleSaveRecord` guard rejects such minutes before the store
is reached. -/
theorem C6_insertRecord_accepts_nonpositive_minutes (db : DBState)
    (rec : RecordInput) (h : rec.minutes ≤ 0) :
    (insertRecord db rec).2.records = db.records ++ [insertedRow db rec] ∧
    (insertedRow db rec).minutes = rec.minutes ∧
    minutesGuardPasses (some rec.minutes) = false := by
  refine ⟨rfl, rfl, ?_⟩
  simp [minutesGuardPasses, h]

/-- C6 witness: inserting a zero-minutes record into the concrete state. -/
theorem C6_witness :
    (zeroMinutesInput.minutes ≤ 0) ∧
    ((insertRecord exDB zeroMinutesInput).2.records =
        exDB.records ++ [insertedRow exDB zeroMinutesInput] ∧
     (insertedRow exDB zeroMinutesInput).minutes = zeroMinutesInput.minutes ∧
     minutesGuardPasses (some zeroMinutesInput.minutes) = false) :=
  ⟨by decide,
   C6_insertRecord_accepts_nonpositive_minutes exDB zeroMinutesInput (by decide)⟩

/-- C8: `fetchTodayRecords(date)` is exactly `getRecordsByDateRange` called
with the local 00:00:00.000 and 23:59:59.999 bounds of that date, and a
freshly inserted record is returned by `fetchTodayRecords` on the day of its
own timestamp. -/
theorem C8_fetchTodayRecords_wraps_range_query (off : Int) (db : DBState)
    (rec : RecordInput) :
    (∀ t : Int, fetchTodayRecords off db t =
        getRecordsByDateRange db (startOfDayLocal off t) (endOfDayLocal off t))
    ∧ insertedRow db rec ∈
        fetchTodayRecords off (insertRecord db rec).2 rec.timestamp := by
  refine ⟨fun _ => rfl, ?_⟩
  have hmem : insertedRow db rec ∈ (insertRecord db rec).2.records := by
    simp [insertRecord]
  have h1 : startOfDayLocal off rec.timestamp ≤ rec.timestamp := by
    unfold startOfDayLocal
    omega
  have h2 : rec.timestamp ≤ endOfDayLocal off rec.timestamp := by
    unfold endOfDayLocal startOfDayLocal
    omega
  have ht : (insertedRow db rec).timestamp = rec.timestamp := rfl
  unfold fetchTodayRecords getRecordsByDateRange
  rw [(List.perm_insertionSort recDesc _).mem_iff, List.mem_filter]
  exact ⟨hmem, by simp [ht, h1, h2]⟩

/-- C7: on a state with no category rows, seeding inserts exactly three
default categories, "Work" (#3b82f6), "Exercise" (#10b981) and "Others"
(#6b7280), and on a state with at least one category row it inserts
nothing. -/
theorem C7_seed_three_defaults_only_when_empty (db : DBState) (now : Int) :
    seedDefaultCategories happyEnv db now =
      (if db.categories.isEmpty then
        { db with
          categories := db.categories ++
            [{ id := db.nextCategoryId, name := "Work",
               colorHex := some "#3b82f6", createdAt := now },
             { id := db.nextCategoryId + 1, name := "Exercise",
               colorHex := some "#10b981", createdAt := now },
             { id := db.nextCategoryId + 2, name := "Others",
               colorHex := some "#6b7280", createdAt := now }],
          nextCategoryId := db.nextCategoryId + 3 }
      else db, none) :=
  seed_happy_eq db now

/-- C3: running `initializeDatabase` a second time (at any later clock
reading) leaves the table-existence flags and every category and record row
exactly as after the first run; in particular no duplicate default
categories are created once at least one category row exists. -/
theorem C3_initializeDatabase_idempotent (db : DBState) (now now2 : Int) :
    (initializeDatabase happyEnv db now).bind
        (fun db1 => initializeDatabase happyEnv db1 now2) =
      initializeDatabase happyEnv db now := by
  have hinit : ∀ (d : DBState) (n : Int), initializeDatabase happyEnv d n =
      .ok (seedDefaultCategories happyEnv
        (createWeekStatsTable (createRecordsTable (createCategoriesTable d)))
        n).1 := fun _ _ => rfl
  have hshape := seed_happy_shape
    (createWeekStatsTable (createRecordsTable (createCategoriesTable db))) now
  obtain ⟨hempty, hc1, hc2, hc3⟩ := hshape
  rw [hinit db now]
  simp only [Except.bind]
  rw [hinit]
  generalize hA : (seedDefaultCategories happyEnv
      (createWeekStatsTable (createRecordsTable (createCategoriesTable db)))
      now).1 = A at hempty hc1 hc2 hc3 ⊢
  simp [createCategoriesTable, createRecordsTable, createWeekStatsTable]
    at hc1 hc2 hc3
  have hcreate :
      createWeekStatsTable (createRecordsTable (createCategoriesTable A)) =
        A := by
    obtain ⟨a1, a2, a3, cats, recs, n1, n2⟩ := A
    simp only at hc1 hc2 hc3
    simp [createCategoriesTable, createRecordsTable, createWeekStatsTable,
      hc1, hc2, hc3]
  rw [hcreate, seed_happy_eq]
  simp [hempty]

/-- C5 counterexample: against a store whose category INSERT fails, running
`initializeDatabase` on an empty database raises an error inside the
seeding step (caught and only logged by `seedDefaultCategories`), yet
`initializeDatabase` itself returns normally instead of propagating it. -/
theorem C5_counterexample :
    (seedDefaultCategories seedFailEnv
        (createWeekStatsTable (createRecordsTable (createCategoriesTable
          emptyDB))) 0).2 = some "SQL execution failed" ∧
    initSucceeds (initializeDatabase seedFailEnv emptyDB 0) = true := by
  decide

/-- C5 amended: `initializeDatabase` returns normally exactly when none of
the three table-creation statements fails — a table-creation failure
propagates to its caller, while a failure during default-category seeding
is swallowed inside `seedDefaultCategories` and never aborts
initialization. -/
theorem C5_only_table_creation_failures_propagate (env : StoreEnv)
    (db : DBState) (now : Int) :
    initSucceeds (initializeDatabase env db now) =
      (!env.createCategoriesFails && !env.createRecordsFails &&
        !env.createWeekStatsFails) := by
  obtain ⟨e1, e2, e3, e4, e5⟩ := env
  cases e1 <;> cases e2 <;> cases e3 <;>
    simp [initializeDatabase, initSucceeds]

/-- The stored rows after `updateRecord` are exactly the old rows with the
dynamic SET clause applied to those whose id matches. -/
theorem updateRecord_records_eq (db : DBState) (id : Int)
    (cid : Option (Option Int)) (d : Option (Option String))
    (m : Option Int) (t : Option Int) :
    (updateRecord db id cid d m t).2.records =
      db.records.map
        (fun r => if r.id == id then applyFields cid d m t r else r) := by
  rcases cid with _ | cv <;> rcases d with _ | dv <;> rcases m with _ | mv <;>
    rcases t with _ | tv
  case none.none.none.none =>
    have hid : (fun r : RecordRow =>
        if r.id == id then applyFields none none none none r else r) =
          fun r : RecordRow => r := by
      funext r
      by_cases hr : r.id == id <;> simp [hr, applyFields]
    rw [hid]
    simp [updateRecord]
  all_goals rfl

/-- C9: `updateRecord` distinguishes an omitted field from an explicit
NULL: a field passed as `undefined` (`none`) is excluded from the SET
clause and keeps its stored value, a nullable field passed as explicit null
(`some none`) is stored as NULL, rows whose id differs from the addressed
one are untouched, and on the addressed row exactly the provided fields are
overwritten. -/
theorem C9_updateRecord_undefined_vs_null (db : DBState) (id : Int)
    (categoryId : Option (Option Int)) (description : Option (Option String))
    (minutes : Option Int) (timestamp : Option Int) :
    ((updateRecord db id categoryId description minutes
        timestamp).2.records.length = db.records.length) ∧
    ∀ (i : Nat) (r r' : RecordRow),
      db.records[i]? = some r →
      (updateRecord db id categoryId description minutes
          timestamp).2.records[i]? = some r' →
      r'.id = r.id ∧
      (r.id ≠ id → r' = r) ∧
      (r.id = id →
        r'.categoryId = categoryId.getD r.categoryId ∧
        r'.description = description.getD r.description ∧
        r'.minutes = minutes.getD r.minutes ∧
        r'.timestamp = timestamp.getD r.timestamp) := by
  rw [updateRecord_records_eq]
  refine ⟨by simp, ?_⟩
  intro i r r' hr hr'
  rw [List.getElem?_map, hr, Option.map_some'] at hr'
  injection hr' with hr'
  subst hr'
  by_cases hid : r.id = id
  · have hb : (r.id == id) = true := beq_iff_eq.mpr hid
    simp [hb, hid, applyFields]
  · have hb : (r.id == id) = false := by simp [hid]
    simp [hb, hid]

/-- C9 witness: explicitly passing NULL for `categoryId` on the concrete
state clears the stored reference of the row with id 1 and changes nothing
else about it. -/
theorem C9_witness :
    (exDB.records[0]? = some row0C9) ∧
    ((updateRecord exDB 1 (some none) none none none).2.records[0]? =
        some row0C9n) ∧
    (row0C9n.id = row0C9.id ∧
     (row0C9.id ≠ 1 → row0C9n = row0C9) ∧
     (row0C9.id = 1 →
       row0C9n.categoryId = none ∧
       row0C9n.description = row0C9.description ∧
       row0C9n.minutes = row0C9.minutes ∧
       row0C9n.timestamp = row0C9.timestamp)) :=
  ⟨by decide, by decide,
   (C9_updateRecord_undefined_vs_null exDB 1 (some none) none none none).2
     0 row0C9 row0C9n (by decide) (by decide)⟩

/-- Keys built from 7-character hex strings decompose uniquely. -/
theorem key_inj {ha oa hb ob : String} (hla : ha.length = 7)
    (hlb : hb.length = 7) (he : ha ++ "-" ++ oa = hb ++ "-" ++ ob) :
    ha = hb ∧ oa = ob := by
  have hd : ha.data ++ ("-".data ++ oa.data) =
      hb.data ++ ("-".data ++ ob.data) := by
    have h := congrArg String.data he
    simpa [String.data_append, List.append_assoc] using h
  have hlen : ha.data.length = hb.data.length := by
    have e1 : ha.data.length = 7 := hla
    have e2 : hb.data.length = 7 := hlb
    omega
  obtain ⟨q1, q2⟩ := List.append_inj hd hlen
  exact ⟨String.ext q1, String.ext (List.append_cancel_left q2)⟩

/-- A `hexToRgba` call with a 7-character hex string preserves the cache
invariant. -/
theorem hexToRgba_preserves_cacheGood {cache : List (String × String)}
    (hg : cacheGood cache) {hx op : String} (hl : hx.length = 7) :
    cacheGood (hexToRgba cache hx op).2 := by
  unfold hexToRgba
  cases hcl : cacheLookup (hx ++ "-" ++ op) cache with
  | some v => simpa [hcl] using hg
  | none =>
    simp only [hcl]
    intro e he
    rcases List.mem_cons.mp he with rfl | he
    · exact ⟨hx, op, hl, rfl, rfl⟩
    · exact hg e he

/-- Any history of calls whose hex arguments all have 7 characters leaves
the module cache satisfying the invariant. -/
theorem foldl_calls_cacheGood :
    ∀ (calls : List (String × String)) (cache : List (String × String)),
      cacheGood cache → (∀ p ∈ calls, (Prod.fst p).length = 7) →
      cacheGood (calls.foldl (fun c p => (hexToRgba c p.1 p.2).2) cache)
  | [], _, hg, _ => hg
  | p :: ps, cache, hg, hall => by
    apply foldl_calls_cacheGood ps
    · exact hexToRgba_preserves_cacheGood hg (hall p (by simp))
    · intro q hq
      exact hall q (by simp [hq])

/-- On a cache satisfying the invariant, the memoized result for a
7-character hex string equals the uncached computation. -/
theorem hexToRgba_cacheGood_eq {cache : List (String × String)}
    (hg : cacheGood cache) {hx op : String} (hl : hx.length = 7) :
    (hexToRgba cache hx op).1 = hexToRgbaDirect hx op := by
  unfold hexToRgba
  cases hcl : cacheLookup (hx ++ "-" ++ op) cache with
  | none => simp [hcl]
  | some v =>
    simp only [hcl]
    obtain ⟨h2, o2, hl2, hkey, hval⟩ := hg _ (cacheLookup_mem hcl)
    obtain ⟨rfl, rfl⟩ := key_inj hl hl2 hkey
    exact hval

/-- C10 counterexample: the cache key `hex + "-" + opacity` is ambiguous, so
the memoized result can differ from the uncached computation for a
7-character hex color string under an adversarial prior call history.  The
JavaScript numbers `7` and `1e-7` render as `"7"` and `"1e-7"`; after a
prior call `hexToRgba("#3b82f6-1e", 7)` the call
`hexToRgba("#3b82f6", 1e-7)` hits that entry (shared key
`"#3b82f6-1e-7"`) and returns `rgba(59, 130, 246, 7)` instead of
`rgba(59, 130, 246, 1e-7)`. -/
theorem C10_counterexample :
    ("#3b82f6".length = 7) ∧
    (hexToRgba (runHexToRgbaCalls [("#3b82f6-1e", "7")]) "#3b82f6" "1e-7").1 ≠
      hexToRgbaDirect "#3b82f6" "1e-7" := by
  decide

/-- C10 amended: for every 7-character hex string and every opacity, the
memoized `hexToRgba` returns exactly the uncached computation, for any
prior call history in which every call also passed a 7-character hex
string; under that restriction the cache never alters an observable
result. -/
theorem C10_memoized_hexToRgba_eq_direct (calls : List (String × String))
    (hex opacity : String) (hcalls : ∀ p ∈ calls, (Prod.fst p).length = 7)
    (hhex : hex.length = 7) :
    (hexToRgba (runHexToRgbaCalls calls) hex opacity).1 =
      hexToRgbaDirect hex opacity :=
  hexToRgba_cacheGood_eq
    (foldl_calls_cacheGood calls [] (by intro e he; cases he) hcalls) hhex

/-- C10 witness: a concrete history of one valid-color call, then a
memoized call on another 7-character color. -/
theorem C10_witness :
    ("#3b82f6".length = 7) ∧
    (hexToRgba (runHexToRgbaCalls [("#10b981", "0.5")]) "#3b82f6" "0.25").1 =
      hexToRgbaDirect "#3b82f6" "0.25" :=
  ⟨by decide,
   C10_memoized_hexToRgba_eq_direct [("#10b981", "0.5")] "#3b82f6" "0.25"
     (by decide) (by decide)⟩
